import Mathlib

/-!
# Verification of `rancher_tools.py`

A shallow embedding of the helper functions in `rancher_tools.py`, a small
client library for the Rancher ("cattle") v2-beta REST API, together with
proofs of the behavioural properties stated in the repository's
specification.

Modelling conventions:

* JSON documents are values of the inductive type `JVal`; Python `dict`s are
  association lists (`List (String × JVal)`), with `dict.update` /
  item-assignment given Python's replace-in-place-or-append semantics.
* `d[k]` subscripting is `pyGet`, which fails with `Err.keyError` when the
  key is absent (and `Err.typeError` when the value is not an object);
  `d.get(k)` is `pyGetD` with default `JVal.null` (Python `None`).
* Every network-touching function runs in `PyM`, an exception monad that
  also accumulates the trace of side effects (`Event.req` for each HTTP
  request issued, `Event.slept` for each `sleep(1)` call).  The remote
  server is a parameter `respond : Request → JVal` giving the decoded JSON
  body of a successful (2xx) response; HTTP-level failures are orthogonal
  to every property proved here.
* `datetime.now()` is a clock `clock : Nat → Int` giving the value of the
  `n`-th call; the unbounded `while` loops take a `fuel` argument, and
  exhausting it yields the distinguished outcome `Err.fuelOut`
  (representing divergence, never an exception of the program).
* Python's in-place mutation visible through aliases is modelled separately
  (`MutStep` / `PyBinding`) to state the deep-copy / no-aliasing property.
-/

/-- A JSON value, as decoded from a response body or built for a request
body.  Objects keep their key order, as Python 3.6 dicts do. -/
inductive JVal where
  | null : JVal
  | bool : Bool → JVal
  | int : Int → JVal
  | str : String → JVal
  | arr : List JVal → JVal
  | obj : List (String × JVal) → JVal
deriving Inhabited

/-- Python `==` as the source uses it: one operand is always a primitive
(an `int` source port, a `str` name/state, or `None`), so equality at
composite values never arises in the compared positions. -/
def JVal.eqPrim : JVal → JVal → Bool
  | .null, .null => true
  | .bool a, .bool b => a == b
  | .int a, .int b => a == b
  | .str a, .str b => a == b
  | _, _ => false

/-- First binding of a key in an association list (Python dicts have unique
keys, so first = only). -/
def jlookup : List (String × JVal) → String → Option JVal
  | [], _ => none
  | (k', v') :: rest, k => if k' = k then some v' else jlookup rest k

/-- Python `d[k] = v`: replace the value in place if the key exists
(keeping its position in the insertion order), otherwise append. -/
def setKey : List (String × JVal) → String → JVal → List (String × JVal)
  | [], k, v => [(k, v)]
  | (k', v') :: rest, k, v =>
      if k' = k then (k', v) :: rest else (k', v') :: setKey rest k v

/-- Python `d1.update(d2)`: assign each binding of `d2` into `d1` in
order. -/
def dictUpdate (d : List (String × JVal)) (kvs : List (String × JVal)) :
    List (String × JVal) :=
  kvs.foldl (fun acc kv => setKey acc kv.1 kv.2) d

/-- The error kinds a call can surface with.  `httpError` is the kind
`raise_for_status` produces for a non-2xx response (never raised under the
always-successful server model, but present so that statements can
distinguish kinds); `fuelOut` marks an exhausted fuel budget, i.e. a run of
the (in Python, unbounded) polling loop longer than modelled. -/
inductive Err where
  | keyError : Err
  | typeError : Err
  | valueError : Err
  | serviceNotFound : Err
  | stackNotFound : Err
  | timeout : Err
  | httpError : Err
  | fuelOut : Err
deriving DecidableEq, Inhabited

/-- Python `d[k]` on a JSON value. -/
def pyGet : JVal → String → Except Err JVal
  | .obj kvs, k =>
      match jlookup kvs k with
      | some v => .ok v
      | none => .error .keyError
  | _, _ => .error .typeError

/-- Python `d.get(k)` with default `None`.  (Only ever applied after a
successful `pyGet` on the same value, so the non-object branch is
unreachable in the embedded code.) -/
def pyGetD (v : JVal) (k : String) : JVal :=
  match v with
  | .obj kvs => (jlookup kvs k).getD .null
  | _ => .null

/-- `d[k] = v` at the `JVal` level. -/
def setField (v : JVal) (k : String) (w : JVal) : JVal :=
  match v with
  | .obj kvs => .obj (setKey kvs k w)
  | other => other

/-- HTTP method of a request. -/
inductive Method where
  | get : Method
  | post : Method
  | put : Method

/-- The URL a request is sent to.  The source builds URLs by f-string
interpolation over `CATTLE_URL`; we keep the route structure instead of
the flattened string. -/
inductive Endpoint where
  /-- `{CATTLE_URL}projects/{project_id}/stacks` -/
  | projectStacks : JVal → Endpoint
  /-- `{CATTLE_URL}projects/{project_id}/services` -/
  | projectServices : JVal → Endpoint
  /-- `{CATTLE_URL}projects/{project_id}/services/{service_id}` -/
  | projectService : JVal → JVal → Endpoint
  /-- an absolute URL taken from a document's `links` map -/
  | href : JVal → Endpoint

/-- One HTTP request as issued by the `requests` calls in the source:
method, URL, query parameters, and optional JSON body. -/
structure Request where
  method : Method
  endpoint : Endpoint
  params : List (String × String)
  body : Option JVal

/-- An observable side effect: an HTTP request, or one `sleep(1)`. -/
inductive Event where
  | req : Request → Event
  | slept : Event

/-- The effect monad of the embedding: an exception monad over `Err`
accumulating the trace of events already performed (events performed
before an exception was raised remain in the trace). -/
def PyM (α : Type) : Type :=
  List Event → Except Err α × List Event

instance : Monad PyM where
  pure a := fun t => (.ok a, t)
  bind m f := fun t =>
    match m t with
    | (.ok a, t') => f a t'
    | (.error e, t') => (.error e, t')

/-- Raise an exception. -/
def throwM {α : Type} (e : Err) : PyM α := fun t => (.error e, t)

/-- Lift a pure `Except` computation (a field access). -/
def liftE {α : Type} : Except Err α → PyM α
  | .ok a => pure a
  | .error e => throwM e

/-- Record one issued HTTP request. -/
def recordReq (r : Request) : PyM Unit := fun t => (.ok (), t ++ [.req r])

/-- Record one `sleep(1)`. -/
def recordSleep : PyM Unit := fun t => (.ok (), t ++ [.slept])

/-- Run a computation with an empty trace. -/
def runPy {α : Type} (m : PyM α) : Except Err α × List Event := m []

/-! ## The embedded functions

Each definition transcribes the body of the synonymous Python function in
`rancher_tools.py`.  `respond` stands for the remote server: the JSON body
of the (successful) response to a given request. -/

/-- `get_svc(project_id, service_id)`: GET the service resource and return
its decoded body. -/
def get_svc (respond : Request → JVal) (project_id service_id : JVal) :
    PyM JVal := do
  let r : Request := ⟨.get, .projectService project_id service_id, [], none⟩
  recordReq r
  pure (respond r)

/-- The client-side re-filtering loop of `get_stack_by_name`: return the
first entry whose `name` item equals `name`, else `StackNotFoundException`. -/
def stackScan (name : String) : List JVal → Except Err JVal
  | [] => .error .stackNotFound
  | s :: rest => do
      let v ← pyGet s "name"
      if v.eqPrim (.str name) then .ok s else stackScan name rest

/-- `get_stack_by_name(project_id, name)`: GET the stack collection with a
server-side `name` filter, then scan the returned `data` list for an exact
name match. -/
def get_stack_by_name (respond : Request → JVal) (project_id : JVal)
    (name : String) : PyM JVal := do
  let r : Request := ⟨.get, .projectStacks project_id, [("name", name)], none⟩
  recordReq r
  let data ← liftE (pyGet (respond r) "data")
  match data with
  | .arr stackList => liftE (stackScan name stackList)
  | _ => throwM .typeError

/-- `svc_ids(svc)`: the `(accountId, id)` pair of a service document. -/
def svc_ids (svc : JVal) : Except Err (JVal × JVal) := do
  let a ← pyGet svc "accountId"
  let i ← pyGet svc "id"
  .ok (a, i)

/-- `refresh_svc(svc)`: re-fetch the service by its identity pair. -/
def refresh_svc (respond : Request → JVal) (svc : JVal) : PyM JVal := do
  let ids ← liftE (svc_ids svc)
  get_svc respond ids.1 ids.2

/-- `datetime.now() > deadline`, where `deadline = none` models
`datetime.max` (never exceeded by a real clock reading). -/
def pastDeadline (deadline : Option Int) (now : Int) : Bool :=
  match deadline with
  | some d => decide (d < now)
  | none => false

/-- The shared `while` loop of `await_active` / `await_healthy`: while the
`field` item of the document differs from `target`, check the deadline,
sleep one second and re-fetch.  `clock (k+1)` is the `datetime.now()`
reading of the next loop iteration (reading `0` computed the deadline);
`fuel` bounds the number of iterations modelled, with `Err.fuelOut`
standing for a longer (possibly divergent) run. -/
def awaitLoop (field target : String) (respond : Request → JVal)
    (clock : Nat → Int) (deadline : Option Int) :
    Nat → Nat → JVal → PyM JVal
  | k, fuel, svc => do
    let v ← liftE (pyGet svc field)
    if v.eqPrim (.str target) then
      pure svc
    else if pastDeadline deadline (clock (k + 1)) then
      throwM .timeout
    else
      match fuel with
      | 0 => throwM .fuelOut
      | fuel' + 1 => do
          recordSleep
          let svc' ← refresh_svc respond svc
          awaitLoop field target respond clock deadline (k + 1) fuel' svc'

/-- `await_active(svc, timeout)`: poll until `state == 'active'`.  With a
timeout, the deadline is `clock 0 + timeout` (the `datetime.now()` call in
the deadline computation); without one it is `datetime.max`. -/
def await_active (respond : Request → JVal) (clock : Nat → Int)
    (svc : JVal) (timeout : Option Int) (fuel : Nat) : PyM JVal :=
  awaitLoop "state" "active" respond clock
    (timeout.map (fun t => clock 0 + t)) 0 fuel svc

/-- `await_healthy(svc, timeout)`: poll until `healthState == 'healthy'`. -/
def await_healthy (respond : Request → JVal) (clock : Nat → Int)
    (svc : JVal) (timeout : Option Int) (fuel : Nat) : PyM JVal :=
  awaitLoop "healthState" "healthy" respond clock
    (timeout.map (fun t => clock 0 + t)) 0 fuel svc

/-- `finish_any_previous_upgrade(svc)`: return the document unchanged
unless `state == 'upgraded'`, in which case POST the `finishupgrade`
action and return the response. -/
def finish_any_previous_upgrade (respond : Request → JVal) (svc : JVal) :
    PyM JVal := do
  let st ← liftE (pyGet svc "state")
  if st.eqPrim (.str "upgraded") then do
    let ids ← liftE (svc_ids svc)
    let r : Request :=
      ⟨.post, .projectService ids.1 ids.2, [("action", "finishupgrade")], none⟩
    recordReq r
    pure (respond r)
  else
    pure svc

/-- The `path` argument as the Python value compared against
`pr.get('path')`: absent (`None`) is `null`, distinct from every string. -/
def pathArg : Option String → JVal
  | none => .null
  | some s => .str s

/-- The port-rule match test shared by `get_lb_svc_target` and
`change_lb_svc_target`:
`pr['sourcePort'] == source_port and pr.get('path') == path`.
The `sourcePort` subscript is evaluated first and may raise; the `and` is
short-circuit but the `get`-based conjunct cannot raise. -/
def ruleTest (source_port : Int) (path : JVal) (pr : JVal) :
    Except Err Bool := do
  let sp ← pyGet pr "sourcePort"
  .ok (sp.eqPrim (.int source_port) && (pyGetD pr "path").eqPrim path)

/-- The scan loop of `get_lb_svc_target`: first rule matching the
`(source_port, path)` pair, if any. -/
def findRule (source_port : Int) (path : JVal) :
    List JVal → Except Err (Option JVal)
  | [] => .ok none
  | pr :: rest => do
      let m ← ruleTest source_port path pr
      if m then .ok (some pr) else findRule source_port path rest

/-- `get_lb_svc_target(lb_svc, source_port, path)`: fetch the service
targeted by the first matching port rule, or raise
`ServiceNotFoundException`. -/
def get_lb_svc_target (respond : Request → JVal) (lb_svc : JVal)
    (source_port : Int) (path : Option String) : PyM JVal := do
  let ids ← liftE (svc_ids lb_svc)
  let lbc ← liftE (pyGet lb_svc "lbConfig")
  let rules ← liftE (pyGet lbc "portRules")
  match rules with
  | .arr prs => do
      let found ← liftE (findRule source_port (pathArg path) prs)
      match found with
      | some pr => do
          let sid ← liftE (pyGet pr "serviceId")
          get_svc respond ids.1 sid
      | none => throwM .serviceNotFound
  | _ => throwM .typeError

/-- The mutation loop of `change_lb_svc_target`: walk the rules, set
`serviceId` on the first match and `break`; the second component is the
`changed` flag. -/
def updateRules (source_port : Int) (path : JVal) (target_svc_id : JVal) :
    List JVal → Except Err (List JVal × Bool)
  | [] => .ok ([], false)
  | pr :: rest => do
      let m ← ruleTest source_port path pr
      if m then
        .ok (setField pr "serviceId" target_svc_id :: rest, true)
      else do
        let res ← updateRules source_port path target_svc_id rest
        .ok (pr :: res.1, res.2)

/-- `change_lb_svc_target(lb_svc, source_port, path, target_svc_id)`:
on a deep copy, rewrite the first matching rule's `serviceId`; raise
`ValueError` when no rule matched, else PUT `{'lbConfig': lb_config}` to
the document's `links['self']` URL.  (The `deepcopy` has no effect on the
values computed here; its aliasing consequence is stated over
`change_lb_steps` below.) -/
def change_lb_svc_target (respond : Request → JVal) (lb_svc : JVal)
    (source_port : Int) (path : Option String) (target_svc_id : JVal) :
    PyM JVal := do
  let lbc ← liftE (pyGet lb_svc "lbConfig")
  let rules ← liftE (pyGet lbc "portRules")
  match rules with
  | .arr prs => do
      let res ← liftE (updateRules source_port (pathArg path) target_svc_id prs)
      if res.2 then do
        let links ← liftE (pyGet lb_svc "links")
        let selfUrl ← liftE (pyGet links "self")
        let body : JVal := .obj [("lbConfig", setField lbc "portRules" (.arr res.1))]
        let r : Request := ⟨.put, .href selfUrl, [], some body⟩
        recordReq r
        pure (respond r)
      else
        throwM .valueError
  | _ => throwM .typeError

/-- The body `create_svc` submits: defaults, overlaid with the caller's
`config` / `launch_config`, then the forced identity fields.  In the
source the image assignment `_launch_config.update(imageUuid=...)` textually
follows the insertion of `_launch_config` into `_config`, but `_config`
holds a reference to the same dict, so the submitted body contains the
image; value semantics computes the final launch config first. -/
def create_svc_body (stack_id : JVal) (name image_name : String)
    (config launch_config : Option (List (String × JVal))) :
    List (String × JVal) :=
  let c0 : List (String × JVal) := [("scale", .int 1), ("startOnCreate", .bool true)]
  let l0 : List (String × JVal) := [("tty", .bool true)]
  let c1 := match config with | none => c0 | some c => dictUpdate c0 c
  let l1 := match launch_config with | none => l0 | some l => dictUpdate l0 l
  let l2 := setKey l1 "imageUuid" (.str ("docker:" ++ image_name))
  dictUpdate c1
    [("type", .str "service"), ("name", .str name),
     ("stackId", stack_id), ("launchConfig", .obj l2)]

/-- The POST request `create_svc` issues. -/
def create_svc_request (project_id stack_id : JVal) (name image_name : String)
    (config launch_config : Option (List (String × JVal))) : Request :=
  ⟨.post, .projectServices project_id, [],
    some (.obj (create_svc_body stack_id name image_name config launch_config))⟩

/-- `create_svc(project_id, stack_id, name, image_name, config,
launch_config)`: POST the merged document to the project's service
collection. -/
def create_svc (respond : Request → JVal) (project_id stack_id : JVal)
    (name image_name : String)
    (config launch_config : Option (List (String × JVal))) : PyM JVal := do
  let r := create_svc_request project_id stack_id name image_name config launch_config
  recordReq r
  pure (respond r)

/-- `clone_svc(svc, new_name, new_image, config, launch_config)`: on a deep
copy, overlay `config` and `launch_config`, optionally replace the primary
image, rename, and POST the document as a new service. -/
def clone_svc (respond : Request → JVal) (svc : JVal) (new_name : String)
    (new_image : Option String)
    (config launch_config : Option (List (String × JVal))) : PyM JVal := do
  let ids ← liftE (svc_ids svc)
  let svc1 := match svc with
    | .obj kvs => JVal.obj (dictUpdate kvs (config.getD []))
    | v => v
  let lc ← liftE (pyGet svc1 "launchConfig")
  let lc1 ← match lc with
    | .obj kvs => pure (JVal.obj (dictUpdate kvs (launch_config.getD [])))
    | _ => throwM Err.typeError
  let lc2 := match new_image with
    | some img => setField lc1 "imageUuid" (.str ("docker:" ++ img))
    | none => lc1
  let svc2 := setField (setField svc1 "launchConfig" lc2) "name" (.str new_name)
  let r : Request := ⟨.post, .projectServices ids.1, [], some svc2⟩
  recordReq r
  pure (respond r)

/-- `d.get(k, default)` with an explicit default. -/
def pyGetDefault (v : JVal) (k : String) (d : JVal) : JVal :=
  match v with
  | .obj kvs => (jlookup kvs k).getD d
  | _ => d

/-- The dict comprehension `{x['name']: x for x in ...}` of
`upgrade_svc_images`: keys keep their first-insertion position, later
duplicates overwrite the value.  (Model restriction: a non-string `name`
is rejected, where Python would accept any hashable key.) -/
def buildSlcs (acc : List (String × JVal)) :
    List JVal → Except Err (List (String × JVal))
  | [] => .ok acc
  | x :: rest => do
      let n ← pyGet x "name"
      match n with
      | .str s => buildSlcs (setKey acc s x) rest
      | _ => .error .typeError

/-- The `for name, img in new_secondary_images.items()` loop: the
subscript `slcs[name]` is unguarded, so an absent name raises `KeyError`. -/
def applySecondaries (slcs : List (String × JVal)) :
    List (String × String) → Except Err (List (String × JVal))
  | [] => .ok slcs
  | (n, img) :: rest =>
      match jlookup slcs n with
      | some x =>
          applySecondaries
            (setKey slcs n (setField x "imageUuid" (.str ("docker:" ++ img)))) rest
      | none => .error .keyError

/-- `upgrade_svc_images(svc, new_image, new_secondary_images)`: finish any
pending upgrade, wait for `active`, rewrite the primary and/or named
secondary launch configs' images, and POST the `upgrade` action with an
in-service strategy. -/
def upgrade_svc_images (respond : Request → JVal) (clock : Nat → Int)
    (fuel : Nat) (svc : JVal) (new_image : Option String)
    (new_secondary_images : Option (List (String × String))) : PyM JVal := do
  let svc1 ← finish_any_previous_upgrade respond svc
  let svc2 ← await_active respond clock svc1 none fuel
  let ids ← liftE (svc_ids svc2)
  let lc ← liftE (pyGet svc2 "launchConfig")
  let slcs ← match pyGetDefault svc2 "secondaryLaunchConfigs" (.arr []) with
    | .arr xs => liftE (buildSlcs [] xs)
    | _ => throwM Err.typeError
  let lc1 := match new_image with
    | some img => setField lc "imageUuid" (.str ("docker:" ++ img))
    | none => lc
  let slcs1 ← match new_secondary_images with
    | some m => liftE (applySecondaries slcs m)
    | none => pure slcs
  let body : JVal := .obj
    [("inServiceStrategy", .obj
      [("launchConfig", lc1),
       ("secondaryLaunchConfigs", .arr (slcs1.map Prod.snd))])]
  let r : Request := ⟨.post, .projectService ids.1 ids.2, [("action", "upgrade")], some body⟩
  recordReq r
  pure (respond r)

/-- The exact-name test of the client-side re-filter in
`get_stack_by_name` (`stack['name'] == name`), as a Boolean predicate on
entries whose `name` item is present. -/
def nameIs (name : String) (s : JVal) : Bool :=
  match pyGet s "name" with
  | .ok v => v.eqPrim (.str name)
  | .error _ => false

/-! ## Aliasing model for the deep-copy discipline

Value semantics cannot express Python's in-place mutation through an
alias, so the effect of each function on the *caller's* object is stated
over an explicit statement trace: the local name either still aliases the
caller's object (`working = none`) or was rebound (`deepcopy`, or
assignment of a fresh result).  `mutate` is an in-place mutation of the
object the local name currently denotes; `rebind` re-points the name at a
newly produced object without touching the previous one. -/

/-- One statement of a mutating function, as it affects the document bound
to the local service variable. -/
inductive MutStep (σ : Type) where
  | deepcopy : MutStep σ
  | mutate : (σ → σ) → MutStep σ
  | rebind : (σ → σ) → MutStep σ

/-- The caller's object together with what the local name denotes
(`none`: still the caller's object itself). -/
structure PyBinding (σ : Type) where
  caller : σ
  working : Option σ

/-- The binding at function entry: the parameter aliases the caller's
object. -/
def initBinding {σ : Type} (d : σ) : PyBinding σ := ⟨d, none⟩

/-- The object the local name currently denotes. -/
def PyBinding.current {σ : Type} (b : PyBinding σ) : σ :=
  b.working.getD b.caller

/-- Execute one statement. -/
def runStep {σ : Type} (b : PyBinding σ) : MutStep σ → PyBinding σ
  | .deepcopy => ⟨b.caller, some b.current⟩
  | .mutate f =>
      match b.working with
      | some w => ⟨b.caller, some (f w)⟩
      | none => ⟨f b.caller, none⟩
  | .rebind f => ⟨b.caller, some (f b.current)⟩

/-- Execute a statement trace. -/
def runSteps {σ : Type} (b : PyBinding σ) (steps : List (MutStep σ)) :
    PyBinding σ :=
  steps.foldl runStep b

/-- The statement trace of `change_lb_svc_target` as it affects the
document bound to `lb_svc`: first `lb_svc = deepcopy(lb_svc)`, then the
loop's single in-place mutation `pr['serviceId'] = target_svc_id` (the
mutation payload `f` is irrelevant to the aliasing property, which holds
for every payload). -/
def change_lb_steps (f : JVal → JVal) : List (MutStep JVal) :=
  [.deepcopy, .mutate f]

/-- The statement trace of `clone_svc`: `svc = deepcopy(svc)`, then the
in-place mutations `svc.update(config or {})`,
`svc['launchConfig'].update(launch_config or {})`,
`svc['launchConfig']['imageUuid'] = ...`, and `svc['name'] = new_name`. -/
def clone_steps (f1 f2 f3 f4 : JVal → JVal) : List (MutStep JVal) :=
  [.deepcopy, .mutate f1, .mutate f2, .mutate f3, .mutate f4]

/-- The statement trace of `upgrade_svc_images`: `svc = deepcopy(svc)`,
the rebindings `svc = finish_any_previous_upgrade(svc)` and
`svc = await_active(svc)` (each produces a fresh object or keeps the
current one), then the in-place image mutations on `launch_config` and
the `slcs` values, both reachable from the current object. -/
def upgrade_steps (g1 g2 f1 f2 : JVal → JVal) : List (MutStep JVal) :=
  [.deepcopy, .rebind g1, .rebind g2, .mutate f1, .mutate f2]

/-! ## Lemmas: the dictionary model and the effect monad -/

theorem jlookup_setKey_self (d : List (String × JVal)) (k : String) (v : JVal) :
    jlookup (setKey d k v) k = some v := by
  induction d with
  | nil => simp [setKey, jlookup]
  | cons hd tl ih =>
      obtain ⟨a, b⟩ := hd
      by_cases h : a = k
      · simp [setKey, h, jlookup]
      · simp [setKey, h, jlookup, ih]

theorem jlookup_setKey_other (d : List (String × JVal)) (k k' : String)
    (v : JVal) (h : k' ≠ k) :
    jlookup (setKey d k v) k' = jlookup d k' := by
  induction d with
  | nil => simp [setKey, jlookup, Ne.symm h]
  | cons hd tl ih =>
      obtain ⟨a, b⟩ := hd
      by_cases hk : a = k
      · subst hk
        simp [setKey, jlookup, Ne.symm h]
      · by_cases hk' : a = k'
        · simp [setKey, hk, jlookup, hk', h]
        · simp [setKey, hk, jlookup, hk', ih]

@[simp] theorem pyM_bind_apply {α β : Type} (m : PyM α) (f : α → PyM β)
    (t : List Event) :
    (m >>= f) t =
      match m t with
      | (.ok a, t') => f a t'
      | (.error e, t') => (.error e, t') := rfl

@[simp] theorem pyM_pure_apply {α : Type} (a : α) (t : List Event) :
    (pure a : PyM α) t = (.ok a, t) := rfl

@[simp] theorem throwM_apply {α : Type} (e : Err) (t : List Event) :
    (throwM e : PyM α) t = (.error e, t) := rfl

@[simp] theorem liftE_ok_apply {α : Type} (a : α) (t : List Event) :
    (liftE (.ok a) : PyM α) t = (.ok a, t) := rfl

@[simp] theorem liftE_error_apply {α : Type} (e : Err) (t : List Event) :
    (liftE (.error e) : PyM α) t = (.error e, t) := rfl

@[simp] theorem recordReq_apply (r : Request) (t : List Event) :
    recordReq r t = (.ok (), t ++ [.req r]) := rfl

@[simp] theorem recordSleep_apply (t : List Event) :
    recordSleep t = (.ok (), t ++ [.slept]) := rfl

@[simp] theorem runPy_def {α : Type} (m : PyM α) : runPy m = m [] := rfl

/-- After any step, a binding whose local name no longer aliases the
caller's object keeps the caller's object intact, and the name still does
not alias it. -/
theorem runStep_preserves {σ : Type} (b : PyBinding σ) (s : MutStep σ)
    (h : b.working.isSome) :
    (runStep b s).caller = b.caller ∧ (runStep b s).working.isSome := by
  obtain ⟨w, hw⟩ := Option.isSome_iff_exists.mp h
  cases s with
  | deepcopy => simp [runStep]
  | mutate f => simp [runStep, hw]
  | rebind f => simp [runStep]

theorem runSteps_preserves {σ : Type} (steps : List (MutStep σ))
    (b : PyBinding σ) (h : b.working.isSome) :
    (runSteps b steps).caller = b.caller ∧ (runSteps b steps).working.isSome := by
  induction steps generalizing b with
  | nil => exact ⟨rfl, h⟩
  | cons s rest ih =>
      have hs := runStep_preserves b s h
      have := ih (runStep b s) hs.2
      simp only [runSteps, List.foldl] at this ⊢
      exact ⟨this.1.trans hs.1, this.2⟩

/-! ## The claims -/

/-- C8: No operation that mutates a service document mutates the
caller-supplied object: `change_lb_svc_target`, `clone_svc` and
`upgrade_svc_images` each deep-copy the document before any in-place
mutation or rebinding, so the caller's object is the same before and
after the call — whatever the individual mutation payloads do. -/
theorem deepcopy_protects_caller (d : JVal) (f f1 f2 f3 f4 g1 g2 h1 h2 : JVal → JVal) :
    (runSteps (initBinding d) (change_lb_steps f)).caller = d
    ∧ (runSteps (initBinding d) (clone_steps f1 f2 f3 f4)).caller = d
    ∧ (runSteps (initBinding d) (upgrade_steps g1 g2 h1 h2)).caller = d :=
  ⟨rfl, rfl, rfl⟩

/-- C5: a service already in state `active` makes `await_active` return it
at once: no sleep, no fetch, for every timeout (including none) and every
fuel budget. -/
theorem await_active_immediate (respond : Request → JVal) (clock : Nat → Int)
    (svc : JVal) (timeout : Option Int) (fuel : Nat)
    (h : pyGet svc "state" = .ok (.str "active")) :
    runPy (await_active respond clock svc timeout fuel) = (.ok svc, []) := by
  rw [await_active, awaitLoop.eq_def]
  simp [h, JVal.eqPrim]

/-- Witness for C5 at a concrete document. -/
theorem await_active_immediate_witness :
    runPy (await_active (fun _ => JVal.null) (fun _ => 0)
        (JVal.obj [("state", JVal.str "active")]) none 0) =
      (.ok (JVal.obj [("state", JVal.str "active")]), []) :=
  await_active_immediate _ _ _ _ _ rfl

/-- C4: with a non-positive timeout and an observed field not at its
target value, `await_active` (resp. `await_healthy`) raises the `Timeout`
error at the first deadline check, before any sleep or re-fetch, for any
clock that strictly advances between the two `now()` readings. -/
theorem await_past_deadline_no_fetch (respond : Request → JVal)
    (clock : Nat → Int) (svc : JVal) (t : Int) (fuel : Nat)
    (hclock : clock 0 < clock 1) (ht : t ≤ 0) :
    (∀ v, pyGet svc "state" = .ok v → v.eqPrim (.str "active") = false →
      runPy (await_active respond clock svc (some t) fuel) = (.error .timeout, []))
    ∧ (∀ v, pyGet svc "healthState" = .ok v → v.eqPrim (.str "healthy") = false →
      runPy (await_healthy respond clock svc (some t) fuel) = (.error .timeout, [])) := by
  have hlt : clock 0 + t < clock 1 := by omega
  constructor
  · intro v hv hne
    rw [await_active, awaitLoop.eq_def]
    simp [hv, hne, pastDeadline, hlt]
  · intro v hv hne
    rw [await_healthy, awaitLoop.eq_def]
    simp [hv, hne, pastDeadline, hlt]

/-- Witness for C4 at a concrete document, zero timeout and unit-step
clock. -/
theorem await_past_deadline_no_fetch_witness :
    runPy (await_active (fun _ => JVal.null) (fun n => (n : Int))
        (JVal.obj [("state", JVal.str "upgrading"),
                   ("healthState", JVal.str "degraded")]) (some 0) 5) =
      (.error .timeout, [])
    ∧ runPy (await_healthy (fun _ => JVal.null) (fun n => (n : Int))
        (JVal.obj [("state", JVal.str "upgrading"),
                   ("healthState", JVal.str "degraded")]) (some 0) 5) =
      (.error .timeout, []) :=
  have h := await_past_deadline_no_fetch (fun _ => JVal.null)
    (fun n => (n : Int))
    (JVal.obj [("state", JVal.str "upgrading"),
               ("healthState", JVal.str "degraded")]) 0 5
    (by decide) (by decide)
  ⟨h.1 _ rfl rfl, h.2 _ rfl rfl⟩

/-- C3: `finish_any_previous_upgrade` returns a non-`upgraded` document
unchanged and issues no request; on an `upgraded` document it issues
exactly one POST of the `finishupgrade` action against the service's
identity pair and returns the server's response. -/
theorem finish_any_previous_upgrade_spec (respond : Request → JVal) (svc : JVal) :
    (∀ v, pyGet svc "state" = .ok v → v.eqPrim (.str "upgraded") = false →
      runPy (finish_any_previous_upgrade respond svc) = (.ok svc, []))
    ∧ (∀ pid sid, pyGet svc "state" = .ok (.str "upgraded") →
      pyGet svc "accountId" = .ok pid → pyGet svc "id" = .ok sid →
      runPy (finish_any_previous_upgrade respond svc) =
        (.ok (respond ⟨.post, .projectService pid sid,
            [("action", "finishupgrade")], none⟩),
         [.req ⟨.post, .projectService pid sid,
            [("action", "finishupgrade")], none⟩])) := by
  constructor
  · intro v hv hne
    simp [finish_any_previous_upgrade, hv, hne]
  · intro pid sid hs ha hi
    simp [finish_any_previous_upgrade, svc_ids, hs, ha, hi, JVal.eqPrim,
      Bind.bind, Except.bind]

/-- Witness for C3: both branches at concrete documents. -/
theorem finish_any_previous_upgrade_spec_witness :
    runPy (finish_any_previous_upgrade (fun _ => JVal.null)
        (JVal.obj [("state", JVal.str "active")])) =
      (.ok (JVal.obj [("state", JVal.str "active")]), [])
    ∧ runPy (finish_any_previous_upgrade (fun _ => JVal.str "done")
        (JVal.obj [("state", JVal.str "upgraded"),
                   ("accountId", JVal.str "1a5"), ("id", JVal.str "1s9")])) =
      (.ok (JVal.str "done"),
       [.req ⟨.post, .projectService (JVal.str "1a5") (JVal.str "1s9"),
          [("action", "finishupgrade")], none⟩]) :=
  ⟨(finish_any_previous_upgrade_spec (fun _ => JVal.null)
      (JVal.obj [("state", JVal.str "active")])).1 _ rfl rfl,
   (finish_any_previous_upgrade_spec (fun _ => JVal.str "done")
      (JVal.obj [("state", JVal.str "upgraded"),
                 ("accountId", JVal.str "1a5"), ("id", JVal.str "1s9")])).2
      _ _ rfl rfl rfl⟩

/-- A rule list in which every rule tests negative passes through the
mutation loop unchanged, with the `changed` flag still false. -/
theorem updateRules_nomatch (sp : Int) (p tid : JVal) (rules : List JVal)
    (h : ∀ r ∈ rules, ruleTest sp p r = .ok false) :
    updateRules sp p tid rules = .ok (rules, false) := by
  induction rules with
  | nil => rfl
  | cons r rest ih =>
      have hr := h r (by simp)
      have hrest := ih (fun x hx => h x (by simp [hx]))
      simp [updateRules, hr, hrest, Bind.bind, Except.bind]

/-- The mutation loop rewrites exactly the first matching rule and stops
there. -/
theorem updateRules_first_match (sp : Int) (p tid : JVal)
    (pre : List JVal) (r : JVal) (post : List JVal)
    (hpre : ∀ x ∈ pre, ruleTest sp p x = .ok false)
    (hr : ruleTest sp p r = .ok true) :
    updateRules sp p tid (pre ++ r :: post) =
      .ok (pre ++ setField r "serviceId" tid :: post, true) := by
  induction pre with
  | nil => simp [updateRules, hr, Bind.bind, Except.bind]
  | cons x xs ih =>
      have hx := hpre x (by simp)
      have h' := ih (fun y hy => hpre y (by simp [hy]))
      simp [updateRules, hx, h', Bind.bind, Except.bind]

/-- C2: when no port rule matches the `(source_port, path)` pair,
`change_lb_svc_target` fails with the `ValueError` kind — not the HTTP
kind — and issues no request at all, leaving the remote resource
untouched. -/
theorem change_lb_svc_target_no_match (respond : Request → JVal)
    (lb_svc lbc : JVal) (prs : List JVal) (sp : Int) (path : Option String)
    (tid : JVal)
    (hlbc : pyGet lb_svc "lbConfig" = .ok lbc)
    (hrules : pyGet lbc "portRules" = .ok (.arr prs))
    (hnone : ∀ r ∈ prs, ruleTest sp (pathArg path) r = .ok false) :
    runPy (change_lb_svc_target respond lb_svc sp path tid) =
      (.error .valueError, []) := by
  simp [change_lb_svc_target, hlbc, hrules,
    updateRules_nomatch sp (pathArg path) tid prs hnone]

/-- Witness for C2: a document whose one rule differs in path. -/
theorem change_lb_svc_target_no_match_witness :
    runPy (change_lb_svc_target (fun _ => JVal.null)
        (JVal.obj [("lbConfig", JVal.obj [("portRules", JVal.arr
            [JVal.obj [("sourcePort", JVal.int 80), ("path", JVal.str "/api"),
                       ("serviceId", JVal.str "1s1")]])])])
        80 none (JVal.str "1s2")) =
      (.error .valueError, []) :=
  change_lb_svc_target_no_match (fun _ => JVal.null) _ _ _ 80 none _
    rfl rfl (by intro r hr; simp at hr; subst hr; rfl)

/-- C1: with at least one matching rule, `change_lb_svc_target` rewrites
the `serviceId` of the first matching rule to the new target service id,
leaves every other rule (and every other `lbConfig` item) unchanged, and
PUTs the whole modified `lbConfig` as the body `{'lbConfig': ...}` to the
document's own `links['self']` URL, returning the server's response. -/
theorem change_lb_svc_target_updates_first_match (respond : Request → JVal)
    (lb_svc lbc links selfUrl : JVal) (pre post : List JVal) (r : JVal)
    (sp : Int) (path : Option String) (tid : JVal)
    (hlbc : pyGet lb_svc "lbConfig" = .ok lbc)
    (hrules : pyGet lbc "portRules" = .ok (.arr (pre ++ r :: post)))
    (hpre : ∀ x ∈ pre, ruleTest sp (pathArg path) x = .ok false)
    (hr : ruleTest sp (pathArg path) r = .ok true)
    (hlinks : pyGet lb_svc "links" = .ok links)
    (hself : pyGet links "self" = .ok selfUrl) :
    runPy (change_lb_svc_target respond lb_svc sp path tid) =
      (.ok (respond ⟨.put, .href selfUrl, [],
          some (.obj [("lbConfig", setField lbc "portRules"
            (.arr (pre ++ setField r "serviceId" tid :: post)))])⟩),
       [.req ⟨.put, .href selfUrl, [],
          some (.obj [("lbConfig", setField lbc "portRules"
            (.arr (pre ++ setField r "serviceId" tid :: post)))])⟩]) := by
  simp [change_lb_svc_target, hlbc, hrules, hlinks, hself,
    updateRules_first_match sp (pathArg path) tid pre r post hpre hr]

/-- Witness for C1: the second rule (no `path` item) matches the no-path
argument; the first rule (with a path) and the extra `lbConfig` key ride
along unchanged. -/
theorem change_lb_svc_target_updates_first_match_witness :
    runPy (change_lb_svc_target (fun _ => JVal.str "ok")
        (JVal.obj
          [("lbConfig", JVal.obj
            [("portRules", JVal.arr
              [JVal.obj [("sourcePort", JVal.int 80), ("path", JVal.str "/api"),
                         ("serviceId", JVal.str "1s1")],
               JVal.obj [("sourcePort", JVal.int 80),
                         ("serviceId", JVal.str "1s5")]]),
             ("defaultCertificateId", JVal.null)]),
           ("links", JVal.obj [("self", JVal.str "http://cattle/v2-beta/lb")])])
        80 none (JVal.str "1s9")) =
      (.ok (JVal.str "ok"),
       [.req ⟨.put, .href (JVal.str "http://cattle/v2-beta/lb"), [],
          some (.obj [("lbConfig", setField
            (JVal.obj
              [("portRules", JVal.arr
                [JVal.obj [("sourcePort", JVal.int 80), ("path", JVal.str "/api"),
                           ("serviceId", JVal.str "1s1")],
                 JVal.obj [("sourcePort", JVal.int 80),
                           ("serviceId", JVal.str "1s5")]]),
               ("defaultCertificateId", JVal.null)])
            "portRules"
            (.arr
              [JVal.obj [("sourcePort", JVal.int 80), ("path", JVal.str "/api"),
                         ("serviceId", JVal.str "1s1")],
               setField (JVal.obj [("sourcePort", JVal.int 80),
                         ("serviceId", JVal.str "1s5")])
                 "serviceId" (JVal.str "1s9")]))])⟩]) :=
  change_lb_svc_target_updates_first_match (fun _ => JVal.str "ok")
    _ _ _ _
    [JVal.obj [("sourcePort", JVal.int 80), ("path", JVal.str "/api"),
               ("serviceId", JVal.str "1s1")]]
    []
    (JVal.obj [("sourcePort", JVal.int 80), ("serviceId", JVal.str "1s5")])
    80 none (JVal.str "1s9")
    rfl rfl (by intro x hx; simp at hx; subst hx; rfl) rfl rfl rfl

/-- A rule list in which every rule tests negative yields no hit in the
scan loop of `get_lb_svc_target`. -/
theorem findRule_nomatch (sp : Int) (p : JVal) (rules : List JVal)
    (h : ∀ r ∈ rules, ruleTest sp p r = .ok false) :
    findRule sp p rules = .ok none := by
  induction rules with
  | nil => rfl
  | cons r rest ih =>
      have hr := h r (by simp)
      simp [findRule, hr, ih (fun x hx => h x (by simp [hx])),
        Bind.bind, Except.bind]

/-- C10: when no port rule matches the `(source_port, path)` pair,
`get_lb_svc_target` raises `ServiceNotFoundException` — not a
`ValueError` — and issues no request at all after scanning the rules. -/
theorem get_lb_svc_target_not_found (respond : Request → JVal)
    (lb_svc lbc pid sid : JVal) (prs : List JVal) (sp : Int)
    (path : Option String)
    (ha : pyGet lb_svc "accountId" = .ok pid)
    (hi : pyGet lb_svc "id" = .ok sid)
    (hlbc : pyGet lb_svc "lbConfig" = .ok lbc)
    (hrules : pyGet lbc "portRules" = .ok (.arr prs))
    (hnone : ∀ r ∈ prs, ruleTest sp (pathArg path) r = .ok false) :
    runPy (get_lb_svc_target respond lb_svc sp path) =
      (.error .serviceNotFound, []) := by
  simp [get_lb_svc_target, svc_ids, ha, hi, hlbc, hrules,
    findRule_nomatch sp (pathArg path) prs hnone, Bind.bind, Except.bind]

/-- Witness for C10: one rule, wrong source port. -/
theorem get_lb_svc_target_not_found_witness :
    runPy (get_lb_svc_target (fun _ => JVal.null)
        (JVal.obj
          [("accountId", JVal.str "1a5"), ("id", JVal.str "1s1"),
           ("lbConfig", JVal.obj [("portRules", JVal.arr
             [JVal.obj [("sourcePort", JVal.int 443),
                        ("serviceId", JVal.str "1s7")]])])])
        80 none) =
      (.error .serviceNotFound, []) :=
  get_lb_svc_target_not_found (fun _ => JVal.null) _ _ _ _ _ 80 none
    rfl rfl rfl rfl (by intro r hr; simp at hr; subst hr; rfl)

/-- The re-filter loop of `get_stack_by_name` agrees with `List.find?` on
the exact-name predicate, when every candidate has a `name` item. -/
theorem stackScan_find (name : String) (stackList : List JVal)
    (hwf : ∀ s ∈ stackList, ∃ v, pyGet s "name" = .ok v) :
    stackScan name stackList =
      match stackList.find? (nameIs name) with
      | some s => .ok s
      | none => .error .stackNotFound := by
  induction stackList with
  | nil => rfl
  | cons s rest ih =>
      obtain ⟨v, hv⟩ := hwf s (by simp)
      have ih' := ih (fun x hx => hwf x (by simp [hx]))
      by_cases hmatch : v.eqPrim (.str name) = true
      · simp [stackScan, hv, hmatch, List.find?, nameIs, Bind.bind, Except.bind]
      · simp only [Bool.not_eq_true] at hmatch
        simp [stackScan, hv, hmatch, List.find?, nameIs, ih',
          Bind.bind, Except.bind]

/-- C7: `get_stack_by_name` returns the first entry of the server's
`data` list whose `name` is exactly the requested name — entries whose
names merely contain it are skipped — and raises
`StackNotFoundException` when no entry matches exactly, even though the
server returned candidates. -/
theorem get_stack_by_name_exact_match (respond : Request → JVal)
    (project_id : JVal) (name : String) (stackList : List JVal)
    (hdata : pyGet (respond ⟨.get, .projectStacks project_id,
        [("name", name)], none⟩) "data" = .ok (.arr stackList))
    (hwf : ∀ s ∈ stackList, ∃ v, pyGet s "name" = .ok v) :
    runPy (get_stack_by_name respond project_id name) =
      ((match stackList.find? (nameIs name) with
        | some s => .ok s
        | none => .error .stackNotFound),
       [.req ⟨.get, .projectStacks project_id, [("name", name)], none⟩]) := by
  simp only [get_stack_by_name]
  simp [hdata, stackScan_find name stackList hwf]
  cases hfind : List.find? (nameIs name) stackList <;> simp [hfind]

/-- Witness for C7: a `web` query against candidates `web-old` and `web`
selects the exact `web` entry; against `web-old` alone it raises
`StackNotFoundException`. -/
theorem get_stack_by_name_exact_match_witness :
    runPy (get_stack_by_name
        (fun _ => JVal.obj [("data", JVal.arr
          [JVal.obj [("name", JVal.str "web-old"), ("id", JVal.str "1st2")],
           JVal.obj [("name", JVal.str "web"), ("id", JVal.str "1st1")]])])
        (JVal.str "1a5") "web") =
      (.ok (JVal.obj [("name", JVal.str "web"), ("id", JVal.str "1st1")]),
       [.req ⟨.get, .projectStacks (JVal.str "1a5"), [("name", "web")], none⟩])
    ∧ runPy (get_stack_by_name
        (fun _ => JVal.obj [("data", JVal.arr
          [JVal.obj [("name", JVal.str "web-old"), ("id", JVal.str "1st2")]])])
        (JVal.str "1a5") "web") =
      (.error .stackNotFound,
       [.req ⟨.get, .projectStacks (JVal.str "1a5"), [("name", "web")], none⟩]) :=
  ⟨get_stack_by_name_exact_match
      (fun _ => JVal.obj [("data", JVal.arr
        [JVal.obj [("name", JVal.str "web-old"), ("id", JVal.str "1st2")],
         JVal.obj [("name", JVal.str "web"), ("id", JVal.str "1st1")]])])
      (JVal.str "1a5") "web" _ rfl
      (by intro s hs; simp at hs
          rcases hs with h | h <;> subst h <;> exact ⟨_, rfl⟩),
   get_stack_by_name_exact_match
      (fun _ => JVal.obj [("data", JVal.arr
        [JVal.obj [("name", JVal.str "web-old"), ("id", JVal.str "1st2")]])])
      (JVal.str "1a5") "web" _ rfl
      (by intro s hs; simp at hs; subst hs; exact ⟨_, rfl⟩)⟩

/-- C6: every document `create_svc` submits has `type` `'service'`, the
given `name` and `stackId`, and a launch config whose `imageUuid` is
`'docker:' + image_name` — whatever the caller put in `config` /
`launch_config`; and with both optional dictionaries absent the submitted
document also carries the defaults `scale = 1`, `startOnCreate = true`
and `tty = true`. -/
theorem create_svc_submitted_document (respond : Request → JVal)
    (project_id stack_id : JVal) (name image_name : String)
    (config launch_config : Option (List (String × JVal))) :
    runPy (create_svc respond project_id stack_id name image_name
        config launch_config) =
      (.ok (respond (create_svc_request project_id stack_id name image_name
          config launch_config)),
       [.req (create_svc_request project_id stack_id name image_name
          config launch_config)])
    ∧ jlookup (create_svc_body stack_id name image_name config launch_config)
        "type" = some (.str "service")
    ∧ jlookup (create_svc_body stack_id name image_name config launch_config)
        "name" = some (.str name)
    ∧ jlookup (create_svc_body stack_id name image_name config launch_config)
        "stackId" = some stack_id
    ∧ (jlookup (create_svc_body stack_id name image_name config launch_config)
        "launchConfig").map (fun lcv => pyGetD lcv "imageUuid")
        = some (.str ("docker:" ++ image_name))
    ∧ (jlookup (create_svc_body stack_id name image_name none none)
        "scale" = some (.int 1)
       ∧ jlookup (create_svc_body stack_id name image_name none none)
        "startOnCreate" = some (.bool true)
       ∧ (jlookup (create_svc_body stack_id name image_name none none)
        "launchConfig").map (fun lcv => pyGetD lcv "tty")
        = some (.bool true)) := by
  refine ⟨rfl, ?_, ?_, ?_, ?_, ?_, ?_, ?_⟩ <;>
    simp [create_svc_body, dictUpdate, List.foldl, jlookup_setKey_other,
      jlookup_setKey_self, pyGetD, jlookup]

/-- A document already at the loop's target value exits the polling loop
at once, whatever the deadline and fuel. -/
theorem awaitLoop_hit (field target : String) (respond : Request → JVal)
    (clock : Nat → Int) (deadline : Option Int) (k fuel : Nat) (svc : JVal)
    (h : pyGet svc field = .ok (.str target)) :
    awaitLoop field target respond clock deadline k fuel svc = pure svc := by
  funext t
  rw [awaitLoop.eq_def]
  simp [h, JVal.eqPrim]

/-- If any requested secondary name is absent from the `slcs` map, the
secondary-image loop raises `KeyError` (setting images for the names it
visited first, none of which adds a key). -/
theorem applySecondaries_missing (slcs : List (String × JVal))
    (m : List (String × String))
    (h : ∃ p ∈ m, jlookup slcs p.1 = none) :
    applySecondaries slcs m = .error .keyError := by
  induction m generalizing slcs with
  | nil => simp at h
  | cons q rest ih =>
      obtain ⟨n, img⟩ := q
      obtain ⟨p, hp, hnone⟩ := h
      rcases List.mem_cons.mp hp with heq | hmem
      · subst heq
        simp only at hnone
        simp [applySecondaries, hnone]
      · by_cases hq : jlookup slcs n = none
        · simp [applySecondaries, hq]
        · obtain ⟨x, hx⟩ := Option.ne_none_iff_exists'.mp hq
          simp only [applySecondaries, hx]
          apply ih
          refine ⟨p, hmem, ?_⟩
          have hne : p.1 ≠ n := by
            intro hcontra
            rw [hcontra, hx] at hnone
            cases hnone
          rw [jlookup_setKey_other _ _ _ _ hne]
          exact hnone

/-- C9: `upgrade_svc_images` called with a `new_secondary_images` name
that no secondary launch config of the (already-active) service carries
fails with the unguarded `KeyError` kind — not a not-found kind — and
issues no request at all, in particular no `upgrade` action. -/
theorem upgrade_svc_images_missing_secondary (respond : Request → JVal)
    (clock : Nat → Int) (fuel : Nat) (svc lc pid sid : JVal) (xs : List JVal)
    (slcs : List (String × JVal)) (m : List (String × String))
    (new_image : Option String)
    (hstate : pyGet svc "state" = .ok (.str "active"))
    (ha : pyGet svc "accountId" = .ok pid)
    (hi : pyGet svc "id" = .ok sid)
    (hlc : pyGet svc "launchConfig" = .ok lc)
    (hslc : pyGetDefault svc "secondaryLaunchConfigs" (.arr []) = .arr xs)
    (hbuild : buildSlcs [] xs = .ok slcs)
    (hmiss : ∃ p ∈ m, jlookup slcs p.1 = none) :
    runPy (upgrade_svc_images respond clock fuel svc new_image (some m)) =
      (.error .keyError, []) := by
  have hfin : finish_any_previous_upgrade respond svc = pure svc := by
    funext t
    simp [finish_any_previous_upgrade, hstate, JVal.eqPrim]
  have hawait : await_active respond clock svc none fuel = pure svc := by
    rw [await_active]
    exact awaitLoop_hit _ _ _ _ _ _ _ _ hstate
  have happ := applySecondaries_missing slcs m hmiss
  simp [upgrade_svc_images, hfin, hawait, svc_ids, ha, hi, hlc, hslc, hbuild,
    happ, Bind.bind, Except.bind]

/-- Witness for C9: an active service with one sidekick named `sidekick`,
asked to upgrade a sidekick named `missing`. -/
theorem upgrade_svc_images_missing_secondary_witness :
    runPy (upgrade_svc_images (fun _ => JVal.null) (fun _ => 0) 3
        (JVal.obj
          [("state", JVal.str "active"), ("accountId", JVal.str "1a5"),
           ("id", JVal.str "1s1"),
           ("launchConfig", JVal.obj [("imageUuid", JVal.str "docker:app:1")]),
           ("secondaryLaunchConfigs", JVal.arr
             [JVal.obj [("name", JVal.str "sidekick"),
                        ("imageUuid", JVal.str "docker:side:1")]])])
        none (some [("missing", "side:2")])) =
      (.error .keyError, []) :=
  upgrade_svc_images_missing_secondary (fun _ => JVal.null) (fun _ => 0) 3
    _ _ _ _ _
    [("sidekick", JVal.obj [("name", JVal.str "sidekick"),
                            ("imageUuid", JVal.str "docker:side:1")])]
    [("missing", "side:2")] none
    rfl rfl rfl rfl rfl rfl ⟨("missing", "side:2"), by simp, rfl⟩
